import Mathlib

/-!
Verification of the CS-Profiler fault-injection campaign engine.

Shallow embedding of the Python sources:
  * `src/simpleserial/simpleserial.py` (class `TargetSerial`): CRC-8,
    COBS stuff/unstuff, packet encode/decode, `send_packet`, `peek`,
    `type_convert_cmd`.
  * `src/profile_target.py` (class `CSProfiler`): the command registry
    (`addSimpleSerialCommand`), packet dispatch (`handlePacket`), and the
    per-position / per-config execution loop of `test_position` with its
    retry and escalation policy.
  * `src/config_classes.py`: `GlitchConfig`, `SimpleSerialPacket`.

Bytes are modelled as `Nat` (each value kept below 256 by the explicit
`&&& 0xFF` masks the Python code performs).  Python exceptions are
modelled with `Except` / an explicit error type; a Python function body
that reads a local variable that was never assigned raises
`UnboundLocalError`, which the embedding returns as an error value.
-/

namespace SimpleSerial

/-- `TargetSerial._calc_crc`: CRC-8 with polynomial 0x4D, initial value 0.
For each input byte, XOR it into the running CRC, then shift left eight
times, XOR-ing the polynomial whenever the top bit was set and masking to
8 bits after every shift. -/
def crc_shift_step (crc : Nat) : Nat :=
  if crc &&& 0x80 ≠ 0 then ((crc <<< 1) ^^^ 0x4D) &&& 0xFF
  else (crc <<< 1) &&& 0xFF

/-- Eight shift rounds for one input byte (the inner `for _ in range(8)`). -/
def crc_byte (crc b : Nat) : Nat :=
  (List.range 8).foldl (fun c _ => crc_shift_step c) (crc ^^^ b)

/-- Outer loop of `_calc_crc` over the buffer. -/
def calc_crc (buf : List Nat) : Nat :=
  buf.foldl crc_byte 0x00

/-- Loop body of `TargetSerial._cobs_stuff_data`.  State: the output
buffer `out` (with a placeholder at `codeIndex` for the pending code
byte), the running block code `code`, and `codeIndex`.  Mirrors the
Python loop byte for byte; at the end the pending code byte is
finalised (`out[code_index] = code`). -/
def cobs_stuff_go (frame : Nat) : List Nat → List Nat → Nat → Nat → List Nat
  | [], out, code, codeIndex => out.set codeIndex code
  | b :: rest, out, code, codeIndex =>
    if b == frame || code == 0xFF then
      -- close the current block and open a new one
      let out1 := out.set codeIndex code
      let codeIndex1 := out1.length
      let out2 := out1 ++ [0]
      if b != frame then
        cobs_stuff_go frame rest (out2 ++ [b]) 2 codeIndex1
      else
        cobs_stuff_go frame rest out2 1 codeIndex1
    else
      -- b ≠ frame here (b = frame always enters the first branch)
      cobs_stuff_go frame rest (out ++ [b]) (code + 1) codeIndex

/-- `TargetSerial._cobs_stuff_data(buf, frame_byte=0x00)`. -/
def cobs_stuff_data (buf : List Nat) (frame : Nat := 0x00) : List Nat :=
  if buf = [] then [] else cobs_stuff_go frame buf [0] 1 0

/-- `TargetSerial._cobs_unstuff_data(buf, frame_byte=0x00)`.  Reads a code
byte, copies `code - 1` following bytes, re-inserts one frame byte unless
`code = 0xFF` or the buffer is exhausted.  Fails (ValueError) on a zero
code byte or a block extending past the end of the buffer.

The recursion consumes at least one byte per step; `fuel` (instantiated
with the buffer length by `cobs_unstuff_data`) only makes the recursion
structural and is never exhausted, since each step consumes ≥ 1 byte. -/
def cobs_unstuff_go (frame : Nat) : Nat → List Nat → Except String (List Nat)
  | _, [] => .ok []
  | 0, _ :: _ => .error "Invalid COBS: block extends past end of buffer"
  | fuel + 1, code :: rest =>
    if code = 0 then .error "Invalid COBS: code byte cannot be 0"
    else if rest.length < code - 1 then
      .error "Invalid COBS: block extends past end of buffer"
    else
      let block := rest.take (code - 1)
      let rest2 := rest.drop (code - 1)
      match cobs_unstuff_go frame fuel rest2 with
      | .error e => .error e
      | .ok tail =>
        if code < 0xFF ∧ rest2 ≠ [] then .ok (block ++ frame :: tail)
        else .ok (block ++ tail)

def cobs_unstuff_data (buf : List Nat) (frame : Nat := 0x00) :
    Except String (List Nat) :=
  if buf = [] then .ok [] else cobs_unstuff_go frame buf.length buf

/-- Python values accepted as a command by `TargetSerial.type_convert_cmd`
(an `int`, or a `str` whose first character is taken). -/
inductive PyCmd
  | int (n : Int)
  | str (s : String)

/-- `TargetSerial.type_convert_cmd(cmd)`: a string is replaced by the code
point of its first character; the resulting integer must lie in 0..255
(`if not (0 <= cmd <= 255)`). -/
def type_convert_cmd : PyCmd → Except String Nat
  | .str s =>
    match s.data with
    | [] => .error "Command string cannot be empty"
    | c :: _ =>
      if c.toNat ≤ 255 then .ok c.toNat
      else .error "Command out of byte range (0-255)"
  | .int n =>
    if 0 ≤ n ∧ n ≤ 255 then .ok n.toNat
    else .error "Command out of byte range (0-255)"

/-- `TargetSerial.send_packet(cmd, data, timeout)`, returning the bytes
written to the transport.  The payload is taken as bytes
(`type_convert_data` is the identity on `bytes`).  NOTE, faithful to the
source: in the branch for a packet with data the Python body assembles
the local `pkt` (command, COBS-encoded data+CRC, terminator) but then
executes `self.write(buf, timeout)`, and the local `buf` is assigned only
in the no-data branch — Python raises `UnboundLocalError` there and
nothing is written. -/
def send_packet (cmd : PyCmd) (data : Option (List Nat)) :
    Except String (List Nat) :=
  match type_convert_cmd cmd with
  | .error e => .error e
  | .ok c =>
    match data with
    | none => .ok [c, 0]
    | some d =>
      -- `if not data:` — an empty payload is falsy and sends `[cmd, 0]`
      if d = [] then .ok [c, 0]
      else .error "UnboundLocalError: local variable buf referenced before assignment"

/-- The packet value the data branch of `send_packet` assembles into its
local `pkt` (built but never written): `[cmd] ++ COBS(data ++ [crc8(data)]) ++ [0x00]`. -/
def send_packet_pkt (c : Nat) (data : List Nat) : List Nat :=
  c :: cobs_stuff_data (data ++ [calc_crc data]) ++ [0]

/-- `TargetSerial.peek(num_bytes, timeout)`: the body calls
`self.ser.peek_bytes(num_bytes, timeout)` but has no `return` statement,
so the bytes the transport produced are discarded and the function
returns `None`.  The transport capability is abstracted as `peek_bytes`;
the first component records what the transport call produced, the second
is `peek`'s return value. -/
def peek (peek_bytes : Nat → Nat → List Nat) (num_bytes : Nat)
    (timeout : Nat := 250) : List Nat × Option (List Nat) :=
  (peek_bytes num_bytes timeout, none)

/-- `TargetSerial.read_packet(timeout)`, as a function of the byte buffer
returned by `read_until(self._frame_byte, timeout)`.  Mirrors the body
after the read: terminator check, terminator strip, signal packet
(single remaining byte), otherwise COBS decode, split off the trailing
CRC byte and compare it against `_calc_crc` of the rest. -/
def read_packet (buf : List Nat) : Except String (Nat × Option (List Nat)) :=
  if buf.getLast? ≠ some 0 then
    .error "receive_packet: Timeout waiting for packet terminator"
  else
    let buf1 := buf.dropLast
    if buf1.length = 1 then .ok (buf1.headD 0, none)
    else
      match buf1 with
      | [] => .error "IndexError: buf[0] on empty buffer"
      | cmd :: encoded =>
        match cobs_unstuff_data encoded with
        | .error e => .error e
        | .ok decoded =>
          if decoded.length < 1 then .error "read_packet: decode failed"
          else
            let data := decoded.dropLast
            let crc := decoded.getLastD 0
            if calc_crc data ≠ crc then .error "read_packet: CRC mismatch"
            else .ok (cmd, some data)

end SimpleSerial

namespace Profiler

/-- Python exceptions relevant to `profile_target.py`. -/
inductive PyErr
  | unboundLocal (var : String)
  | valueError (msg : String)
  | keyError (key : String)
  | typeError (msg : String)
  | assertionError (msg : String)
  | runtimeError (msg : String)
  | exception (msg : String)
  deriving DecidableEq

/-- Python `str(e)` for the exceptions above (`str(KeyError(k))` shows the
key in single quotes). -/
def PyErr.str : PyErr → String
  | .unboundLocal v =>
    "local variable \x27" ++ v ++ "\x27 referenced before assignment"
  | .valueError m => m
  | .keyError k => "\x27" ++ k ++ "\x27"
  | .typeError m => m
  | .assertionError m => m
  | .runtimeError m => m
  | .exception m => m

/-- Types a packet handler may return as extradata (`handlePacket`
validates `isinstance(extradata, (dict, str, int, list))`), plus `None`
and a stand-in for every other Python type. -/
inductive Extra
  | dict
  | str
  | int
  | list
  | pynone
  | other
  deriving DecidableEq

/-- The extradata types `handlePacket` accepts. -/
def Extra.isAllowed : Extra → Bool
  | .dict | .str | .int | .list => true
  | .pynone | .other => false

/-- Result of invoking a packet handler `handler(profiler, packet, data)`:
it raises, returns a bare category string, returns a
`(category, extradata)` pair, or returns a value of any other shape. -/
inductive HandlerOutcome
  | raises (msg : String)
  | retStr (category : String)
  | retPair (category : String) (extradata : Extra)
  | retOther
  deriving DecidableEq

/-- `config_classes.SimpleSerialPacket` after construction: the `command`
attribute has already been passed through `type_convert_cmd`, so it is a
byte value 0..255.  `handler` abstracts the handler attribute: `some o`
is a callable whose invocation produces outcome `o`; `none` is a
non-callable object passed as `externalHandler`. -/
structure SSPacket where
  command : Nat
  handler : Option HandlerOutcome
  deriving DecidableEq

/-- `CSProfiler.handlePacket(cmd, data)`.  Faithful to the source:
the `for` loop only assigns `matched_packet` when some packet's command
matches, so when none does, the subsequent `if matched_packet is None`
check reads an unassigned local and Python raises `UnboundLocalError` —
the `ValueError` for an unmatched command is unreachable.  Likewise, when
the handler attribute is not callable, the final
`return result_category, extradata` reads unassigned locals. -/
def handlePacket (simpleserial_config : List SSPacket)
    (result_types : List String) (cmd : Nat) : Except PyErr (String × Extra) :=
  match simpleserial_config.find? (fun p => p.command == cmd) with
  | none => .error (.unboundLocal "matched_packet")
  | some p =>
    match p.handler with
    | none => .error (.unboundLocal "result_category")
    | some outcome =>
      let check : String → Extra → Except PyErr (String × Extra) :=
        fun cat ex =>
          if ¬ result_types.contains cat then
            .error (.valueError ("PacketHandler returned invalid result_category: " ++ cat))
          else if ex ≠ .pynone ∧ ¬ ex.isAllowed then
            .error (.valueError "PacketHandler returned invalid extradata type (has to be dict, str, int, list)")
          else .ok (cat, ex)
      match outcome with
      | .raises msg => .error (.exception msg)
      | .retOther =>
        .error (.valueError "Handler must return either a string or a (string, extradata) tuple!")
      | .retStr cat => check cat .pynone
      | .retPair cat ex => check cat ex

/-- The default `simpleserial_config` built in `CSProfiler.__init__`:
commands s, e, r, f; `s` has the never-overwritten default handler which
raises `RuntimeError`, the others return their fixed categories
(`faultPacketHandler` first resets the target, abstracted away here). -/
def default_simpleserial_config : List SSPacket :=
  [⟨115, some (.raises "SimpleSerialPacket 115: no handler defined")⟩,
   ⟨101, some (.retStr "nofaults")⟩,
   ⟨114, some (.retStr "resets")⟩,
   ⟨102, some (.retStr "faults")⟩]

/-- The default `result_types` keys of `CSProfiler.__init__`. -/
def default_result_types : List String :=
  ["nofaults", "faults", "crashes", "resets", "soft_bricked", "hard_bricked",
   "skipped"]

/-- The command-registry state `addSimpleSerialCommand` manipulates. -/
structure Registry where
  simpleserial_config : List SSPacket
  valid_commands : List Nat
  deriving DecidableEq

/-- `CSProfiler.addSimpleSerialCommand(packet, overwrite)` (the
`isinstance` guard is satisfied by construction here): rejects command 0,
rejects a command already in `valid_commands` unless `overwrite`, in
which case every packet with that command is filtered out and the first
matching `valid_commands` entry removed before appending the new
binding. -/
def addSimpleSerialCommand (st : Registry) (packet : SSPacket)
    (overwrite : Bool) : Except PyErr Registry :=
  if packet.command = 0 then
    .error (.keyError "SimpleSerial command cannot be 0 since zero is the termination character.")
  else if st.valid_commands.contains packet.command then
    if ¬ overwrite then
      .error (.keyError "addCommand: Command already exists in valid_commands.")
    else
      .ok { simpleserial_config :=
              (st.simpleserial_config.filter
                (fun p => p.command != packet.command)) ++ [packet],
            valid_commands :=
              (st.valid_commands.erase packet.command) ++ [packet.command] }
  else
    .ok { simpleserial_config := st.simpleserial_config ++ [packet],
          valid_commands := st.valid_commands ++ [packet.command] }

/-- `config_classes.GlitchConfig` (the fields the campaign loop reads;
Python ints). -/
structure GlitchConfig where
  probe : String
  voltage : Int
  pulse_width : Int
  pulse_spacing : Int
  pulse_repeats : Int
  pulse_offset : Int
  num_executions : Int
  dead_timeout : Int
  ack_timeout : Int := 100
  deriving DecidableEq

/-- A value stored in a `config_results` dict: the `num_<key>`
per-position counter arrays from `__init__`, a plain int (what the
skip branch of `test_position` assigns over such an array), or a list of
extradata groups `(position_index, number of data entries)`. -/
inductive RVal
  | counters (a : List Int)
  | scalar (n : Int)
  | samples (gs : List (Int × Nat))
  deriving DecidableEq

/-- Python dict assignment `d[k] = v` on an association list. -/
def dictSet (d : List (String × RVal)) (k : String) (v : RVal) :
    List (String × RVal) :=
  if (d.lookup k).isSome then
    d.map (fun kv => if kv.1 = k then (k, v) else kv)
  else d ++ [(k, v)]

/-- The `config_results` dict `CSProfiler.__init__` builds for one glitch
config: a zero counter array of length `num_positions` per result type. -/
def init_config_results (num_positions : Nat) : List (String × RVal) :=
  default_result_types.map
    (fun key => ("num_" ++ key, RVal.counters (List.replicate num_positions 0)))

/-- `config_results[f"num_{category}"][position_index] += 1` of
`test_position`: KeyError when the key is absent, IndexError past the
array end, TypeError when the stored value is not a list. -/
def record_category (res : List (String × RVal)) (cat : String) (pos : Nat) :
    Except PyErr (List (String × RVal)) :=
  match res.lookup ("num_" ++ cat) with
  | none => .error (.keyError ("num_" ++ cat))
  | some (.counters a) =>
    if pos < a.length then
      .ok (dictSet res ("num_" ++ cat) (.counters (a.set pos (a.getD pos 0 + 1))))
    else .error (.exception "IndexError: list index out of range")
  | some (.scalar _) => .error (.typeError "int object is not subscriptable")
  | some (.samples _) => .error (.typeError "list indices must be integers")

/-- The extradata bookkeeping of `test_position`: ensure the bare
category key exists, then either extend the most recent data group when
it already targets this position, or (the bare `except:` path) append a
fresh `(position_index, data: [])` group and extend that. -/
def record_extradata (res : List (String × RVal)) (cat : String) (pos : Int) :
    Except PyErr (List (String × RVal)) :=
  let res1 := if (res.lookup cat).isSome then res else res ++ [(cat, .samples [])]
  match res1.lookup cat with
  | some (.samples gs) =>
    match gs.getLast? with
    | some (p, n) =>
      if p = pos then .ok (dictSet res1 cat (.samples (gs.dropLast ++ [(p, n + 1)])))
      else .ok (dictSet res1 cat (.samples (gs ++ [(pos, 1)])))
    | none => .ok (dictSet res1 cat (.samples [(pos, 1)]))
  | _ =>
    -- only reachable when a counter array shares the bare category name;
    -- `.append` on it would splice a dict into a counter list
    .error (.typeError "extradata target is not a sample-group list")

/-- `config_results["soft_bricked"] += 1` / `config_results["hard_bricked"] += 1`
of the tier-2 handler: KeyError when the key is absent (the dict only has
`num_soft_bricked` / `num_hard_bricked` arrays), TypeError on a list. -/
def bricked_incr (res : List (String × RVal)) (key : String) :
    Except PyErr (List (String × RVal)) :=
  match res.lookup key with
  | none => .error (.keyError key)
  | some (.scalar n) => .ok (dictSet res key (.scalar (n + 1)))
  | some (.counters _) =>
    .error (.typeError "unsupported operand types for +=: list and int")
  | some (.samples _) =>
    .error (.typeError "unsupported operand types for +=: list and int")

/-- Hardware-touching calls the campaign loop makes, in program order. -/
inductive HwAction
  | power_cycle_cs
  | flush_serial
  | reset_target
  | configure_cs
  | disarm_cs
  | power_cycle_target
  | new_serial
  | flash_target
  deriving DecidableEq

/-- State of one run of the `while execution_index < num_executions`
loop of `test_position` for one (position, config) pair. -/
structure LoopState where
  execution_index : Int
  retry_count : Nat
  config_results : List (String × RVal)
  catched_errors : List (Int × String)
  events : List HwAction
  deriving DecidableEq

/-- Environment behavior of one loop iteration: either `test_execution`
returned its triple (extradata abstracted to its truthiness), or some
step raised an exception with the given `str(e)`.  The two Booleans give
the outcomes of the two `reset_target()` calls of the tier-2 handler,
should it run (first: after the USB power cycle; second: after
reflashing the firmware); the `reset_target()` of the tier-1 handler is
taken as succeeding. -/
inductive Attempt
  | ok (next_execution_index : Int) (result_category : String) (extradata : Bool)
  | raises (msg : String) (tier2_reset_ok : Bool) (tier2_reflash_reset_ok : Bool)

/-- Result of one loop iteration: continue with the next iteration,
`break` (skip branch: move on to the next config), or an exception
propagating out of `test_position`. -/
inductive StepResult
  | next (st : LoopState)
  | broke (st : LoopState)
  | raised (e : PyErr) (st : LoopState)
  deriving DecidableEq

/-- The tier-2 fallback (`except` of the inner `try`): reflash the
firmware, reset again, then `config_results["hard_bricked"] += 1` and
advance — where the increment's KeyError propagates out of
`test_position`. -/
def tier2_hard (st : LoopState) (reflash_reset_ok : Bool) : StepResult :=
  let st := { st with events := st.events ++ [.flash_target] }
  if reflash_reset_ok then
    let st := { st with events := st.events ++ [.reset_target] }
    match bricked_incr st.config_results "hard_bricked" with
    | .ok res =>
      .next { st with config_results := res,
                      execution_index := st.execution_index + 1 }
    | .error e => .raised e st
  else
    .raised (.exception "Failed to reset target after 3 tries!") st

/-- The `except Exception as e` handler of `test_position`'s main loop:
log the error; with retry budget left, run tier-1 remediation for the
two known ChipShouter messages, tier-2 for the literal string
"ChipWhisperer: reset_target timed out", and re-raise anything else;
with the budget exhausted, overwrite `config_results["num_skipped"]`
with the scalar `num_executions - execution_index` and `break`. -/
def handle_error (g : GlitchConfig) (pos : Nat) (st : LoopState) (e : PyErr)
    (tier2_reset_ok tier2_reflash_reset_ok : Bool) : StepResult :=
  let st := { st with catched_errors := st.catched_errors ++ [((pos : Int), e.str)] }
  if st.retry_count < 3 then
    let st := { st with retry_count := st.retry_count + 1 }
    if e.str = "No response from shouter." ∨
       e.str = "Failed to clear ChipSHOUTER faults!" then
      .next { st with events :=
        st.events ++ [.power_cycle_cs, .flush_serial, .reset_target, .configure_cs] }
    else if e.str = "ChipWhisperer: reset_target timed out" then
      let st := { st with events :=
        st.events ++ [.disarm_cs, .power_cycle_target, .new_serial] }
      if tier2_reset_ok then
        let st := { st with events := st.events ++ [.reset_target] }
        match bricked_incr st.config_results "soft_bricked" with
        | .ok res =>
          .next { st with config_results := res,
                          execution_index := st.execution_index + 1 }
        | .error _ =>
          -- the KeyError from the missing "soft_bricked" key lands in the
          -- inner `except` and triggers the reflash path
          tier2_hard st tier2_reflash_reset_ok
      else
        tier2_hard st tier2_reflash_reset_ok
    else
      .raised e st
  else
    .broke { st with
      config_results := dictSet st.config_results "num_skipped"
                          (.scalar (g.num_executions - st.execution_index)) }

/-- One iteration of the main `try`/`except` of `test_position`:
on a returned triple, first rebind `execution_index`, then the
`print` line's `self.result_types[result_category]` lookup, then the
counter increment and extradata bookkeeping; any exception among these
is handled by the same `except` clause as an exception from
`test_execution` itself. -/
def loop_step (g : GlitchConfig) (result_types : List String) (pos : Nat)
    (st : LoopState) : Attempt → StepResult
  | .ok next cat extradata =>
    let st1 := { st with execution_index := next }
    let recorded : Except PyErr LoopState := do
      if ¬ result_types.contains cat then throw (.keyError cat)
      let res2 ← record_category st1.config_results cat pos
      if extradata then
        let res3 ← record_extradata res2 cat (pos : Int)
        pure { st1 with config_results := res3 }
      else
        pure { st1 with config_results := res2 }
    match recorded with
    | .ok st2 => .next st2
    | .error e => handle_error g pos st1 e true true
  | .raises msg t2a t2b =>
    handle_error g pos st (.exception msg) t2a t2b

/-- Outcome of the whole `while` loop for one (position, config) pair. -/
inductive LoopOutcome
  | completed (st : LoopState)
  | broke (st : LoopState)
  | raised (e : PyErr) (st : LoopState)
  | outOfAttempts (st : LoopState)
  deriving DecidableEq

/-- The `while execution_index < num_executions` loop of `test_position`,
driven by a finite list of environment behaviors (one per iteration);
`outOfAttempts` marks the model running out of supplied behaviors while
the Python loop would iterate again. -/
def test_position_loop (g : GlitchConfig) (result_types : List String)
    (pos : Nat) : List Attempt → LoopState → LoopOutcome
  | [], st =>
    if st.execution_index < g.num_executions then .outOfAttempts st
    else .completed st
  | a :: rest, st =>
    if st.execution_index < g.num_executions then
      match loop_step g result_types pos st a with
      | .next st2 => test_position_loop g result_types pos rest st2
      | .broke st2 => .broke st2
      | .raised e st2 => .raised e st2
    else .completed st

/-- The fault-train duration assertion at the top of `test_position`'s
per-config body:
`(pulse_width + pulse_spacing) * pulse_repeats / 1e6 < dead_timeout`,
the float division modelled as exact division in ℚ. -/
def faulting_train_ok (g : GlitchConfig) : Bool :=
  decide ((((g.pulse_width : ℚ) + (g.pulse_spacing : ℚ)) *
    (g.pulse_repeats : ℚ)) / 1000000 < (g.dead_timeout : ℚ))

/-- Per-config body of `test_position`: the duration assertion, then —
only when it holds — `configure_chipshouter`, the serial flush, and the
execution loop starting from `execution_index = 0`, `retry_count = 0`.
The first component lists the hardware actions taken for this config. -/
def process_config (g : GlitchConfig) (result_types : List String)
    (pos : Nat) (attempts : List Attempt) (res : List (String × RVal)) :
    List HwAction × Except PyErr LoopOutcome :=
  if ¬ faulting_train_ok g then
    ([], .error (.assertionError "Faulting duration exceeds dead_timeout"))
  else
    let st0 : LoopState :=
      { execution_index := 0, retry_count := 0, config_results := res,
        catched_errors := [], events := [.configure_cs, .flush_serial] }
    match test_position_loop g result_types pos attempts st0 with
    | .completed st => (st.events, .ok (.completed st))
    | .broke st => (st.events, .ok (.broke st))
    | .raised e st => (st.events, .error e)
    | .outOfAttempts st => (st.events, .ok (.outOfAttempts st))

/-- The registry as `CSProfiler.__init__` leaves it with the default
`simpleserial_config` (`valid_commands` collects the packet commands). -/
def default_registry : Registry :=
  ⟨default_simpleserial_config, [115, 101, 114, 102]⟩

/-- A glitch configuration as built in `test_profile_target.main`
(`pulse_width` 40, `pulse_spacing` 50, `num_executions` 5,
`dead_timeout` 100 ms). -/
def example_glitch_config : GlitchConfig :=
  { probe := "4mm CW", voltage := 0, pulse_width := 40, pulse_spacing := 50,
    pulse_repeats := 1, pulse_offset := 3400, num_executions := 5,
    dead_timeout := 100 }

/-- Loop state at the top of the `while` loop for a fresh config:
`execution_index = 0`, `retry_count = 0`, pristine counters, after
`configure_chipshouter` and the serial flush. -/
def initial_loop_state (num_positions : Nat) : LoopState :=
  { execution_index := 0, retry_count := 0,
    config_results := init_config_results num_positions,
    catched_errors := [], events := [.configure_cs, .flush_serial] }

/-- `example_glitch_config` with two pulse repeats: the raw fault-train
product is 180 while `dead_timeout` is 100. -/
def two_repeats_config : GlitchConfig :=
  { probe := "4mm CW", voltage := 0, pulse_width := 40, pulse_spacing := 50,
    pulse_repeats := 2, pulse_offset := 3400, num_executions := 5,
    dead_timeout := 100 }

/-- A configuration whose fault train (about 10^6 ms) exceeds the 100 ms
`dead_timeout` even after the nanosecond-to-millisecond conversion. -/
def huge_train_config : GlitchConfig :=
  { probe := "4mm CW", voltage := 0, pulse_width := 1000000000,
    pulse_spacing := 50, pulse_repeats := 1000, pulse_offset := 3400,
    num_executions := 5, dead_timeout := 100 }

end Profiler

namespace SimpleSerial

/-- Sanity: the docstring example `stuff([0x11,0x00,0x22]) = [0x02,0x11,0x02,0x22]`. -/
theorem cobs_stuff_docstring_example :
    cobs_stuff_data [0x11, 0x00, 0x22] = [0x02, 0x11, 0x02, 0x22] := by
  decide

theorem cobs_unstuff_docstring_example :
    cobs_unstuff_data [0x02, 0x11, 0x02, 0x22] = .ok [0x11, 0x00, 0x22] := by
  rfl

set_option maxRecDepth 10000

/-- C1: the claimed round trip `unstuff(stuff(b)) = b` FAILS on the code.
For `b` = 254 non-zero bytes followed by `0x00`, the encoder's merged
branch condition `if b == frame_byte or code == 0xFF` closes the full
block and then silently swallows the frame byte (no empty block is
emitted for it), so decoding returns only the 254 leading bytes and the
trailing `0x00` is lost. -/
theorem c1_cobs_roundtrip_drops_zero_after_full_block :
    cobs_unstuff_data (cobs_stuff_data (List.replicate 254 1 ++ [0])) =
      .ok (List.replicate 254 1) ∧
    (List.replicate 254 1 : List Nat) ≠ List.replicate 254 1 ++ [0] := by
  refine ⟨by rfl, ?_⟩
  intro h
  have := congrArg List.length h
  simp at this

/-- C4: `send_packet` with a non-empty payload does NOT write
`[command] ++ COBS(payload ++ [crc8(payload)]) ++ [0x00]`: the data
branch writes the unassigned local `buf`, so Python raises
`UnboundLocalError` and nothing is sent.  The empty/None-payload branch
does write `[command, 0x00]` as claimed. -/
theorem c4_send_packet_data_branch_raises :
    send_packet (.int 1) (some [0x41]) =
      .error "UnboundLocalError: local variable buf referenced before assignment" ∧
    send_packet (.int 1) none = .ok [1, 0] ∧
    send_packet_pkt 1 [0x41] = [1, 3, 0x41, 115, 0] :=
  ⟨rfl, rfl, rfl⟩

/-- C6: for every framed data packet `[cmd] ++ encoded ++ [0x00]` whose
COBS block decodes to a non-empty `decoded`, `read_packet` fails with the
CRC-mismatch error exactly when `crc8` of the payload (all but the last
decoded byte) differs from the trailing CRC byte, and returns
`(cmd, payload)` when they agree; a one-byte frame `[cmd, 0x00]` yields
`(cmd, None)`. -/
theorem c6_read_packet_crc_check (cmd : Nat) (encoded decoded : List Nat)
    (hdec : cobs_unstuff_data encoded = .ok decoded) (hne : decoded ≠ []) :
    (read_packet ((cmd :: encoded) ++ [0]) =
      if calc_crc decoded.dropLast = decoded.getLastD 0
      then .ok (cmd, some decoded.dropLast)
      else .error "read_packet: CRC mismatch") ∧
    read_packet [cmd, 0] = .ok (cmd, none) := by
  have henc : encoded ≠ [] := by
    intro h
    rw [h] at hdec
    exact hne (Except.ok.inj hdec).symm
  constructor
  · have hlast : ((cmd :: encoded) ++ [0]).getLast? = some 0 :=
      List.getLast?_concat (cmd :: encoded)
    have hdrop : ((cmd :: encoded) ++ [0]).dropLast = cmd :: encoded :=
      List.dropLast_concat
    simp only [read_packet, hlast, hdrop, ne_eq, not_true_eq_false,
      if_false, List.length_cons, Nat.add_left_eq_self, List.length_eq_zero,
      henc, ite_false, hdec, Nat.lt_one_iff, hne, List.getLastD_eq_getLast?]
    by_cases hcrc : calc_crc decoded.dropLast = decoded.getLast?.getD 0
    · rw [if_neg (by simp [hcrc]), if_pos hcrc]
    · rw [if_pos (by simp [hcrc]), if_neg hcrc]
  · rfl

/-- Witness for C6 at a concrete frame: command 5, COBS block `[2, 0x11]`
decoding to `[0x11]`; the payload is empty and its CRC (0) differs from
the trailing byte 0x11, so the CRC-mismatch error is raised. -/
theorem c6_read_packet_crc_check_witness :
    read_packet [5, 2, 0x11, 0] = .error "read_packet: CRC mismatch" ∧
    read_packet [5, 0] = .ok (5, none) := by
  have h := c6_read_packet_crc_check 5 [2, 0x11] [0x11] (by rfl) (by simp)
  simpa using h

/-- C7: packet encoding does NOT reject command 0: `type_convert_cmd`
accepts the whole range 0..255, and `send_packet(0)` happily writes the
frame `[0x00, 0x00]` even though the class's own documentation reserves
0x00 as the frame terminator. -/
theorem c7_command_zero_accepted :
    type_convert_cmd (.int 0) = .ok 0 ∧
    send_packet (.int 0) none = .ok [0, 0] := ⟨rfl, rfl⟩

/-- C10: `peek` always returns `None` — its body performs the transport
read but never returns the bytes, for every byte count, timeout and
transport behavior. -/
theorem c10_peek_returns_none (peek_bytes : Nat → Nat → List Nat)
    (num_bytes timeout : Nat) :
    (peek peek_bytes num_bytes timeout).2 = none := rfl

end SimpleSerial

namespace Profiler

/-- A predicate selecting exactly one element from a list under `filter`
is satisfied first by that element, so `find?` returns it. -/
theorem find?_eq_of_filter_eq_single {α : Type} (pred : α → Bool) (a : α) :
    ∀ l : List α, l.filter pred = [a] → l.find? pred = some a := by
  intro l
  induction l with
  | nil => intro h; cases h
  | cons x xs ih =>
    intro h
    by_cases hx : pred x
    · rw [List.filter_cons_of_pos hx] at h
      rw [List.find?_cons_of_pos _ hx]
      exact congrArg some (List.cons.inj h).1
    · rw [List.filter_cons_of_neg hx] at h
      rw [List.find?_cons_of_neg _ hx]
      exact ih h

/-- C2: once the retry budget is exhausted, the skip branch does NOT
update the per-position entry of the `num_skipped` counter array — it
REPLACES the whole array with the scalar `num_executions -
execution_index`.  Scenario: 2 positions, position 0, `num_executions`
5; two completed executions, then 4 tier-1 errors (budget 3): the dict
entry `num_skipped`, initialized as the array `[0, 0]`, becomes the
plain integer 3, destroying the other position's counter slot. -/
theorem c2_skip_branch_overwrites_counter_array :
    test_position_loop example_glitch_config default_result_types 0
      [.ok 1 "nofaults" false, .ok 2 "nofaults" false,
       .raises "No response from shouter." true true,
       .raises "No response from shouter." true true,
       .raises "No response from shouter." true true,
       .raises "No response from shouter." true true]
      (initial_loop_state 2) =
    .broke
      { execution_index := 2, retry_count := 3,
        config_results :=
          [("num_nofaults", .counters [2, 0]), ("num_faults", .counters [0, 0]),
           ("num_crashes", .counters [0, 0]), ("num_resets", .counters [0, 0]),
           ("num_soft_bricked", .counters [0, 0]),
           ("num_hard_bricked", .counters [0, 0]),
           ("num_skipped", .scalar 3)],
        catched_errors :=
          [(0, "No response from shouter."), (0, "No response from shouter."),
           (0, "No response from shouter."), (0, "No response from shouter.")],
        events :=
          [.configure_cs, .flush_serial,
           .power_cycle_cs, .flush_serial, .reset_target, .configure_cs,
           .power_cycle_cs, .flush_serial, .reset_target, .configure_cs,
           .power_cycle_cs, .flush_serial, .reset_target, .configure_cs] } ∧
    (init_config_results 2).lookup "num_skipped" = some (.counters [0, 0]) := by
  exact ⟨by decide, by decide⟩

/-- C3: the tier-2 remediation never behaves as claimed.  (a) The
repository's own target-reset-timeout error, `ResetTimeoutError` with
message "Failed to reset target after 3 tries!", does not match the
string the handler tests for ("ChipWhisperer: reset_target timed out"),
so with budget left it is re-raised as an unknown error: no recovery, no
soft/hard-recovered count, no index advance.  (b) Even an error carrying
the matched string ends with `KeyError` on `config_results["soft_bricked"]`
(the dict only has the `num_soft_bricked` array), which the inner
`except` turns into a spurious firmware reflash followed by `KeyError`
on "hard_bricked" that propagates: again no count is recorded and the
execution index does not advance. -/
theorem c3_tier2_recovery_never_records :
    (loop_step example_glitch_config default_result_types 0
      (initial_loop_state 2)
      (.raises "Failed to reset target after 3 tries!" true true) =
    .raised (.exception "Failed to reset target after 3 tries!")
      { execution_index := 0, retry_count := 1,
        config_results := init_config_results 2,
        catched_errors := [(0, "Failed to reset target after 3 tries!")],
        events := [.configure_cs, .flush_serial] }) ∧
    (loop_step example_glitch_config default_result_types 0
      (initial_loop_state 2)
      (.raises "ChipWhisperer: reset_target timed out" true true) =
    .raised (.keyError "hard_bricked")
      { execution_index := 0, retry_count := 1,
        config_results := init_config_results 2,
        catched_errors := [(0, "ChipWhisperer: reset_target timed out")],
        events := [.configure_cs, .flush_serial, .disarm_cs,
                   .power_cycle_target, .new_serial, .reset_target,
                   .flash_target, .reset_target] }) := by
  exact ⟨by decide, by decide⟩

/-- C5: dispatching a command with no registered handler does NOT fail
with the documented unknown-command `ValueError`: the lookup loop never
assigns `matched_packet`, so the `if matched_packet is None` check itself
raises `UnboundLocalError`.  Evaluated at command `0x7A` against the
default configuration (commands 115/101/114/102). -/
theorem c5_unknown_command_raises_unbound_local :
    handlePacket default_simpleserial_config default_result_types 0x7A =
      .error (.unboundLocal "matched_packet") := rfl

/-- C8: the registry keeps commands unique.  Registering command 0
always fails; registering an existing command without `overwrite` fails;
registering with `overwrite = True` leaves exactly one packet bound to
that command — the new one — so the old handler is unreachable via the
first-match lookup `handlePacket` performs.  `hsync` is the `__init__`
invariant that every configured packet's command is in
`valid_commands`. -/
theorem c8_registry_uniqueness (st : Registry) (p : SSPacket) (ow : Bool)
    (hsync : ∀ q ∈ st.simpleserial_config, st.valid_commands.contains q.command) :
    (p.command = 0 → addSimpleSerialCommand st p ow =
      .error (.keyError "SimpleSerial command cannot be 0 since zero is the termination character.")) ∧
    (p.command ≠ 0 → st.valid_commands.contains p.command →
      addSimpleSerialCommand st p false =
        .error (.keyError "addCommand: Command already exists in valid_commands.")) ∧
    (p.command ≠ 0 → ∀ st2, addSimpleSerialCommand st p true = .ok st2 →
      st2.simpleserial_config.filter (fun q => q.command == p.command) = [p] ∧
      st2.simpleserial_config.find? (fun q => q.command == p.command) = some p) := by
  refine ⟨fun h0 => by simp [addSimpleSerialCommand, h0], ?_, ?_⟩
  · intro h0 hc
    unfold addSimpleSerialCommand
    rw [if_neg h0, if_pos hc]
    simp
  · intro h0 st2 hok
    unfold addSimpleSerialCommand at hok
    rw [if_neg h0] at hok
    have hfilter : st2.simpleserial_config.filter
        (fun q => q.command == p.command) = [p] := by
      by_cases hc : st.valid_commands.contains p.command
      · rw [if_pos hc] at hok
        simp only [ite_false, Bool.not_true] at hok
        cases hok
        simp only [List.filter_append, List.filter_filter]
        have h1 : (st.simpleserial_config.filter
            (fun a => (a.command == p.command) && (a.command != p.command))) = [] := by
          apply List.filter_eq_nil_iff.mpr
          intro a _
          simp [bne]
        rw [h1]
        simp
      · rw [if_neg hc] at hok
        cases hok
        simp only [List.filter_append]
        have h1 : (st.simpleserial_config.filter
            (fun a => a.command == p.command)) = [] := by
          apply List.filter_eq_nil_iff.mpr
          intro a ha
          intro heq
          have hac : a.command = p.command := by simpa using heq
          exact hc (hac ▸ hsync a ha)
        rw [h1]
        simp
    exact ⟨hfilter, find?_eq_of_filter_eq_single _ p _ hfilter⟩

/-- Witness for C8 on the default registry: command 0 is rejected;
re-registering the fault command 102 without overwrite fails; with
overwrite the resulting configuration binds exactly the new packet
(handler `retPair "faults" dict`) to 102. -/
theorem c8_registry_uniqueness_witness :
    (addSimpleSerialCommand default_registry ⟨0, none⟩ true =
      .error (.keyError "SimpleSerial command cannot be 0 since zero is the termination character.")) ∧
    (addSimpleSerialCommand default_registry ⟨102, some (.retPair "faults" .dict)⟩ false =
      .error (.keyError "addCommand: Command already exists in valid_commands.")) ∧
    (([⟨115, some (.raises "SimpleSerialPacket 115: no handler defined")⟩,
       ⟨101, some (.retStr "nofaults")⟩,
       ⟨114, some (.retStr "resets")⟩,
       ⟨102, some (.retPair "faults" .dict)⟩] : List SSPacket).filter
        (fun q => q.command == 102) = [⟨102, some (.retPair "faults" .dict)⟩] ∧
     ([⟨115, some (.raises "SimpleSerialPacket 115: no handler defined")⟩,
       ⟨101, some (.retStr "nofaults")⟩,
       ⟨114, some (.retStr "resets")⟩,
       ⟨102, some (.retPair "faults" .dict)⟩] : List SSPacket).find?
        (fun q => q.command == 102) = some ⟨102, some (.retPair "faults" .dict)⟩) :=
  ⟨(c8_registry_uniqueness default_registry ⟨0, none⟩ true (by decide)).1 rfl,
   (c8_registry_uniqueness default_registry ⟨102, some (.retPair "faults" .dict)⟩
      false (by decide)).2.1 (by decide) (by decide),
   (c8_registry_uniqueness default_registry ⟨102, some (.retPair "faults" .dict)⟩
      true (by decide)).2.2 (by decide)
     ⟨[⟨115, some (.raises "SimpleSerialPacket 115: no handler defined")⟩,
       ⟨101, some (.retStr "nofaults")⟩,
       ⟨114, some (.retStr "resets")⟩,
       ⟨102, some (.retPair "faults" .dict)⟩], [115, 101, 114, 102]⟩ rfl⟩

/-- The assertion's ℚ comparison, characterised over ℤ: the division by
10^6 is exact, so `dur/10^6 < dead` iff `dur < dead * 10^6`. -/
theorem faulting_train_ok_iff (g : GlitchConfig) :
    faulting_train_ok g = true ↔
    (g.pulse_width + g.pulse_spacing) * g.pulse_repeats <
      g.dead_timeout * 1000000 := by
  unfold faulting_train_ok
  rw [decide_eq_true_iff]
  rw [div_lt_iff₀ (by norm_num : (0:ℚ) < 1000000)]
  constructor
  · intro h
    exact_mod_cast h
  · intro h
    exact_mod_cast h

/-- C9 counterexample: the claim compares the raw product
`(pulse_width + pulse_spacing) * pulse_repeats` against `dead_timeout`,
but the code first divides the nanosecond product by 1e6.  For
pulse_width 40 ns, spacing 50 ns, repeats 2, dead_timeout 100 ms the
claim's condition holds (180 ≥ 100), yet the assertion passes
(0.00018 ms < 100 ms): no configuration error is raised and the
per-config hardware configuration proceeds. -/
theorem c9_raw_duration_comparison_fails :
    (two_repeats_config.pulse_width + two_repeats_config.pulse_spacing) *
      two_repeats_config.pulse_repeats ≥ two_repeats_config.dead_timeout ∧
    faulting_train_ok two_repeats_config = true ∧
    process_config two_repeats_config
      default_result_types 0 [] (init_config_results 2) =
      ([.configure_cs, .flush_serial],
       .ok (.outOfAttempts (initial_loop_state 2))) := by
  have hb : faulting_train_ok two_repeats_config = true :=
    (faulting_train_ok_iff two_repeats_config).mpr (by decide)
  refine ⟨by decide, hb, ?_⟩
  simp only [process_config, hb, Bool.not_true, ite_false]
  rfl

/-- C9 amended: for every glitch config whose fault-train duration in
nanoseconds, `(pulse_width + pulse_spacing) * pulse_repeats`, converted
to milliseconds (divided by 10^6), is not strictly less than
`dead_timeout` (ms), the per-config body raises the AssertionError
before any hardware action of that config (`configure_chipshouter`,
flush, executions). -/
theorem c9_duration_check_in_ms (g : GlitchConfig) (rt : List String)
    (pos : Nat) (attempts : List Attempt) (res : List (String × RVal))
    (h : ¬ ((((g.pulse_width : ℚ) + (g.pulse_spacing : ℚ)) *
      (g.pulse_repeats : ℚ)) / 1000000 < (g.dead_timeout : ℚ))) :
    process_config g rt pos attempts res =
      ([], .error (.assertionError "Faulting duration exceeds dead_timeout")) := by
  have hb : faulting_train_ok g = false := by
    unfold faulting_train_ok
    exact decide_eq_false h
  simp [process_config, hb]

/-- Witness for the amended C9: pulse_width 10^9 ns, 1000 repeats give a
fault train of about 10^6 ms against a 100 ms dead_timeout, so the
config is rejected with no hardware action. -/
theorem c9_duration_check_in_ms_witness :
    process_config huge_train_config default_result_types 0 [] [] =
      ([], .error (.assertionError "Faulting duration exceeds dead_timeout")) :=
  c9_duration_check_in_ms huge_train_config default_result_types 0 [] []
    (by norm_num [huge_train_config])

end Profiler
